import Mathlib

/-!
Verification development for the Dawg-Path-Navigation repository.

The Python sources are shallowly embedded:
* `src/TransitAppBackEnd.py` — crowd-report fusion (`weighted_avg_reports`)
  and the `/eta` endpoint (`get_eta`).
* `src/nav.py` — the GTFS planner (`find_direct_trips`, `plan_direct`,
  `plan_one_transfer`, the safety overlay and the `/plan` pipeline) and the
  realtime delay cache (`fetch_trip_updates`).

Modelling conventions:
* Python machine floats are modelled as exact rationals (`ℚ`); every place
  the code truncates a float with `int(...)` is modelled by `pyInt`
  (truncation toward zero), and Python's `round(x, 3)` by `pyRound3`
  (round-half-to-even, as Python's `round` does).
* `math.exp` is transcendental, so crowd weights live in `ℝ`
  (`Real.exp`); everything downstream of a weight is `ℝ`-valued and
  truncated with `pyIntR`.
* The great-circle helpers `haversine_km` / `haversine_m` are
  floating-point trigonometry (`sin`, `cos`, `atan2`, `sqrt`).  The claims
  under study never depend on a particular distance value, so the distance
  function is a parameter (`hav`) of every planner definition; concrete
  instantiations in witnesses use simple closed rational functions.
* Python `list.sort` is a stable sort; it is embedded as `sortLe`, a stable
  insertion sort (stable sorts of a list by a fixed key agree, so this is
  exactly the Python result).
* Python dictionaries preserve insertion order and are embedded as
  association lists (`alookup`).  Python `set` iteration order is
  unspecified; the embedded route-set intersection fixes the insertion
  order of the first operand, and every statement proved below is either
  order-insensitive or evaluated on data with singleton intersections.
-/

namespace DawgNav

/- Batteries marks the rational operations `@[irreducible]`, which blocks
elaboration-time evaluation of concrete instances of the model; the kernel
itself unfolds them regardless.  Restore default reducibility locally so
that `decide` can evaluate the model on concrete data. -/
attribute [local semireducible] Rat.add Rat.sub Rat.mul Rat.inv Rat.ofScientific

/-- Python `int(x)` on a float: truncation toward zero. -/
def pyInt (x : ℚ) : ℤ := if 0 ≤ x then ⌊x⌋ else ⌈x⌉

/-- Python `int(x)` on a real value: truncation toward zero. -/
noncomputable def pyIntR (x : ℝ) : ℤ := if 0 ≤ x then ⌊x⌋ else ⌈x⌉

/-- Python `round(x)` on a real value: round half to even. -/
noncomputable def pyRoundR (x : ℝ) : ℤ :=
  let n : ℤ := ⌊x⌋
  if x - n < 1/2 then n
  else if 1/2 < x - n then n + 1
  else if n % 2 = 0 then n else n + 1

/-- Python `round(x)`: round half to even (banker's rounding). -/
def pyRound (x : ℚ) : ℤ :=
  let n : ℤ := ⌊x⌋
  let f : ℚ := x - n
  if f < 1/2 then n
  else if 1/2 < f then n + 1
  else if n % 2 = 0 then n else n + 1

/-- Python `round(x, 3)`: round to three decimal places, half to even. -/
def pyRound3 (x : ℚ) : ℚ := (pyRound (x * 1000) : ℚ) / 1000

/-- Python truthiness of an optional string (`None` and `""` are falsy). -/
def pyTruthyStr (o : Option String) : Bool :=
  match o with
  | none => false
  | some s => decide (s ≠ "")

/-- Python truthiness of an optional integer (`None` and `0` are falsy). -/
def pyTruthyInt (o : Option ℤ) : Bool :=
  match o with
  | none => false
  | some n => decide (n ≠ 0)

/-- Dictionary lookup on an insertion-ordered association list. -/
def alookup {κ ν : Type} [DecidableEq κ] (l : List (κ × ν)) (k : κ) : Option ν :=
  (l.find? (fun p => p.1 = k)).map (fun p => p.2)

/-- One step of stable insertion: place `a` before the first element it is
not `le`-after, i.e. before the first strictly greater element group while
staying after earlier equal elements' predecessors.  Using `le a b` keeps
the sort stable (earlier elements stay before later equal ones). -/
def insertLe {α : Type} (le : α → α → Bool) (a : α) : List α → List α
  | [] => [a]
  | b :: t => if le a b then a :: b :: t else b :: insertLe le a t

/-- Stable insertion sort; the embedding of Python's stable `list.sort`. -/
def sortLe {α : Type} (le : α → α → Bool) : List α → List α
  | [] => []
  | a :: t => insertLe le a (sortLe le t)

/-- Decidable equality of `Except` results (componentwise). -/
instance {ε α : Type} [DecidableEq ε] [DecidableEq α] : DecidableEq (Except ε α) := fun a b =>
  match a, b with
  | .ok x, .ok y => if h : x = y then .isTrue (by rw [h]) else .isFalse (by simp [h])
  | .error x, .error y => if h : x = y then .isTrue (by rw [h]) else .isFalse (by simp [h])
  | .ok _, .error _ => .isFalse (by simp)
  | .error _, .ok _ => .isFalse (by simp)

/-- Deduplication with a `seen` set of signatures, as the Python
`for it in out: if sig in seen: continue` loops. -/
def dedupByAux {α σ : Type} [DecidableEq σ] (sig : α → σ) (seen : List σ) :
    List α → List α
  | [] => []
  | a :: t =>
    if sig a ∈ seen then dedupByAux sig seen t
    else a :: dedupByAux sig (sig a :: seen) t

/-- Deduplicate a list by a signature function, keeping first occurrences. -/
def dedupBy {α σ : Type} [DecidableEq σ] (sig : α → σ) (l : List α) : List α :=
  dedupByAux sig [] l

/-- Python `min(l, key=k)` for a nonempty list: index of the first minimum. -/
def pyArgminAux {α : Type} (key : α → ℤ) : List α → ℕ → ℤ → ℕ → ℕ
  | [], _, _, bestIdx => bestIdx
  | a :: t, i, bestVal, bestIdx =>
    if key a < bestVal then pyArgminAux key t (i+1) (key a) i
    else pyArgminAux key t (i+1) bestVal bestIdx

/-- Index of the first minimum of `key` over `l` (0 if `l` is empty). -/
def pyArgmin {α : Type} (key : α → ℤ) (l : List α) : ℕ :=
  match l with
  | [] => 0
  | a :: t => pyArgminAux key t 1 (key a) 0

/-- Two-digit zero padding, as Python's `f"{n:02d}"` for nonnegative `n`. -/
def pad2 (n : ℕ) : String := if n < 10 then "0" ++ toString n else toString n

/-- Embedding of `nav.s2t`: seconds since midnight to `"HH:MM"`. -/
def s2t (s : ℤ) : String :=
  let s' := (max 0 s).toNat
  pad2 (s' / 3600) ++ ":" ++ pad2 (s' % 3600 / 60)

/-- Whether `p` is a prefix of `l` (character-list helper). -/
def hasPre (p l : List Char) : Bool :=
  match p, l with
  | [], _ => true
  | _ :: _, [] => false
  | a :: ps, b :: ls => a = b && hasPre ps ls

/-- Whether `p` occurs as a contiguous sublist of `l`. -/
def hasSub (p : List Char) : List Char → Bool
  | [] => p.isEmpty
  | b :: t => hasPre p (b :: t) || hasSub p t

/-- Python's `pat in s` substring test. -/
def strHas (pat s : String) : Bool := hasSub pat.toList s.toList

/-! ## Crowd report fusion (`src/TransitAppBackEnd.py`) -/

/-- Environment default `REPORT_DECAY_SECONDS` (600 s). -/
def REPORT_DECAY_SECONDS : ℤ := 600

/-- Recency weight of one report: `exp(-age / max(1, REPORT_DECAY_SECONDS))`
from `weighted_avg_reports`.  Ages are float seconds, modelled as `ℚ`. -/
noncomputable def weight (age : ℚ) : ℝ :=
  Real.exp (-(age : ℝ) / ((max 1 REPORT_DECAY_SECONDS : ℤ) : ℝ))

/-- The accumulation loop of `weighted_avg_reports`: running pair
`(total_w, total)` over the `(arrival, age)` report list. -/
noncomputable def wsum (l : List (ℤ × ℚ)) : ℝ × ℝ :=
  l.foldl (fun acc p => (acc.1 + weight p.2, acc.2 + (p.1 : ℝ) * weight p.2))
    ((0 : ℝ), (0 : ℝ))

/-- Embedding of `weighted_avg_reports(reports)`: `None` on the empty list,
otherwise `int(total / total_w)` when `total_w > 0`, else `None`. -/
noncomputable def weighted_avg_reports (l : List (ℤ × ℚ)) : Option ℤ :=
  match l with
  | [] => none
  | _ :: _ =>
    let s := wsum l
    if 0 < s.1 then some (pyIntR (s.2 / s.1)) else none

/-! ## The `/eta` endpoint (`get_eta` in `src/TransitAppBackEnd.py`)

The SQL store is embedded as in-memory lists: `stops` rows, `reports` rows
(with their stored timestamps) and the latest live payload.  The live
payload shape-sniffing (lines 299–316) is embedded as the environment
already holding the extracted arrival items; the matching loop over those
items is embedded faithfully. -/

/-- A row of the `stops` table. -/
structure StopRow where
  id : ℤ
  name : String
  lat : ℚ
  lng : ℚ
deriving DecidableEq

/-- A row of the `reports` table (fields used by `get_eta`). -/
structure ReportRow where
  stop_id : ℤ
  line_id : String
  arrival_seconds : ℤ
  ts : ℚ
deriving DecidableEq

/-- One arrival item extracted from the latest live payload. -/
structure LiveItem where
  sid : String
  lid : String
  eta : Option ℤ
deriving DecidableEq

/-- The `details` dictionary of an `ETAOut` (the keys `get_eta` can set;
`live_sample` carries no information used anywhere and is omitted). -/
structure EtaDetails where
  crowd_count : ℕ
  crowd_eta : Option ℤ
  live_eta : Option ℤ
  assumed_headway_seconds : Option ℤ
  origin_distance_km : Option ℚ
  walk_bike_seconds : Option ℤ
deriving DecidableEq

/-- The `ETAOut` response model. -/
structure ETAOut where
  stop_id : ℤ
  line_id : Option String
  eta_seconds : ℤ
  source : String
  details : EtaDetails
deriving DecidableEq

/-- Backend state visible to one `get_eta` request: the tables, the latest
live items, the wall clock (`datetime.utcnow()` as float seconds) and the
epoch clock (`int(time.time())`). -/
structure BackendEnv where
  stops : List StopRow
  reports : List ReportRow
  live : Option (List LiveItem)
  now : ℚ
  epoch : ℤ

/-- Query parameters of one `get_eta` request. -/
structure EtaQuery where
  stop_id : ℤ
  line_id : Option String
  mode : String
  origin : Option (ℚ × ℚ)

/-- The stop lookup `db.query(Stop).filter(Stop.id == stop_id).first()`. -/
def lookupStop (stops : List StopRow) (sid : ℤ) : Option StopRow :=
  stops.find? (fun s => s.id = sid)

/-- The recent-report query and age computation of `get_eta`: reports for
the stop (and line, when a truthy line filter is present) no older than
`2 * REPORT_DECAY_SECONDS`, mapped to `(arrival_seconds, age)` pairs. -/
def repList (env : BackendEnv) (q : EtaQuery) : List (ℤ × ℚ) :=
  (env.reports.filter (fun r =>
      decide (r.stop_id = q.stop_id) &&
      (if pyTruthyStr q.line_id then decide (r.line_id = q.line_id.getD "") else true) &&
      decide (env.now - (REPORT_DECAY_SECONDS : ℚ) * 2 ≤ r.ts))).map
    (fun r => (r.arrival_seconds, env.now - r.ts))

/-- The live-arrival matching loop of `get_eta` (lines 304–316): the first
item carrying an eta whose stop id matches and whose line matches when a
truthy `line_id` filter is present. -/
def findLiveEta (live : Option (List LiveItem)) (stop_id : ℤ)
    (line_id : Option String) : Option ℤ :=
  match live with
  | none => none
  | some items =>
    (items.find? (fun it =>
        it.eta.isSome && decide (it.sid = toString stop_id) &&
        (!pyTruthyStr line_id || decide (it.lid = line_id.getD "")))).bind
      (fun it => it.eta)

/-- The source-combination block of `get_eta` (lines 318–346): crowd only,
live only, the `0.4 / 0.6` fusion, or the headway fallback.  Returns the
combined eta, the source string, and the `crowd_eta` / `live_eta` /
`assumed_headway_seconds` detail entries. -/
def combineSources (crowd live : Option ℤ) (epoch : ℤ) :
    ℤ × String × Option ℤ × Option ℤ × Option ℤ :=
  match crowd, live with
  | none, none =>
    let headway : ℤ := 10 * 60
    (max 0 ((epoch.fdiv headway + 1) * headway - epoch), "schedule",
      none, none, some headway)
  | some c, none => (c, "crowd", some c, none, none)
  | none, some l => (l, "live_feed", none, some l, none)
  | some c, some l =>
    (pyInt ((c : ℚ) * 0.4 + (l : ℚ) * 0.6), "crowd+live", some c, some l, none)

/-- The walking/biking block of `get_eta` (lines 349–362); the haversine
distance is abstracted as the parameter `hav` (see the module comment). -/
def walkSeconds (hav : ℚ → ℚ → ℚ → ℚ → ℚ) (q : EtaQuery) (stop : StopRow) :
    ℤ × Option ℚ × Option ℤ :=
  match q.origin with
  | none => (0, none, none)
  | some (olat, olng) =>
    let dist := hav olat olng stop.lat stop.lng
    let speed : ℚ := if q.mode = "walking" then 5 else if q.mode = "biking" then 15 else 5
    let wbs := pyInt (dist / max (1/1000) speed * 3600)
    (wbs, some (pyRound3 dist), some wbs)

/-- The body of `get_eta` for a stop that exists, parameterised by the
already-computed crowd component. -/
def getEtaCore (hav : ℚ → ℚ → ℚ → ℚ → ℚ) (env : BackendEnv) (q : EtaQuery)
    (stop : StopRow) (crowd : Option ℤ) : ETAOut :=
  let live := findLiveEta env.live q.stop_id q.line_id
  let cs := combineSources crowd live env.epoch
  let ws := walkSeconds hav q stop
  let es : ℤ × String :=
    if q.mode = "walking" || q.mode = "biking" then
      (ws.1, if cs.2.1 ≠ "schedule" then cs.2.1
             else if ws.1 ≠ 0 then "estimate" else "schedule")
    else (cs.1 + ws.1, cs.2.1)
  { stop_id := q.stop_id, line_id := q.line_id, eta_seconds := max 0 es.1,
    source := es.2,
    details := ⟨(repList env q).length, cs.2.2.1, cs.2.2.2.1, cs.2.2.2.2, ws.2.1, ws.2.2⟩ }

/-- Embedding of `get_eta`: 404 `"stop not found"` for an unknown stop,
otherwise the combined estimate. -/
noncomputable def get_eta (hav : ℚ → ℚ → ℚ → ℚ → ℚ) (env : BackendEnv)
    (q : EtaQuery) : Except String ETAOut :=
  match lookupStop env.stops q.stop_id with
  | none => .error "stop not found"
  | some stop => .ok (getEtaCore hav env q stop (weighted_avg_reports (repList env q)))

/-! ## GTFS planner (`src/nav.py`)

The static GTFS indexes built by `load_static` are embedded as the
post-load in-memory state: insertion-ordered association lists, with
`stop_times_by_trip` already sorted by `stop_sequence` as the loader
leaves it.  `TRIPS` and `STOP_TIMES_BY_STOP` are not consulted by any of
the planner functions under study and are omitted. -/

/-- A `STOPS` entry: name and coordinates. -/
structure StopInfo where
  name : String
  lat : ℚ
  lon : ℚ
deriving DecidableEq

/-- A `ROUTES` entry: short name, long name, route type. -/
structure RouteInfo where
  short : String
  long : String
  rtype : String
deriving DecidableEq

/-- A `stop_times` row as indexed by `load_static`. -/
structure StopTimeRow where
  trip_id : String
  stop_id : String
  arr_sec : ℤ
  dep_sec : ℤ
  seq : ℤ
deriving DecidableEq

/-- The in-memory GTFS indexes used by the planner. -/
structure Static where
  stops : List (String × StopInfo)
  routes : List (String × RouteInfo)
  trips_by_route : List (String × List String)
  stop_times_by_trip : List (String × List StopTimeRow)
  routes_by_stop : List (String × List String)

/-- The realtime snapshot: `TRIP_DELAY` and `TRIP_STOP_DELAY`. -/
structure Delays where
  trip_delay : List (String × ℤ)
  trip_stop_delay : List ((String × String) × ℤ)
deriving DecidableEq

/-- Route list serving a stop (`ROUTES_BY_STOP.get(stop, set())`; the
Python set is embedded as its insertion-ordered element list). -/
def routesAt (st : Static) (sid : String) : List String :=
  (alookup st.routes_by_stop sid).getD []

/-- A candidate direct ride as collected by `find_direct_trips`. -/
structure TripCand where
  trip_id : String
  route_id : String
  dep : ℤ
  arr : ℤ
  o_row : StopTimeRow
  d_row : StopTimeRow
deriving DecidableEq

/-- The body of the trip loop of `find_direct_trips`: the candidate built
for one `(route_id, trip_id)` pair, or `none` when the trip is skipped. -/
def directCandidate (st : Static) (dl : Delays) (o d : String) (after : ℤ)
    (rt : Bool) (rid tid : String) : Option TripCand :=
  let seqs := (alookup st.stop_times_by_trip tid).getD []
  if seqs.isEmpty then none else
  match seqs.find? (fun r => r.stop_id = o), seqs.find? (fun r => r.stop_id = d) with
  | some orow, some drow =>
    if orow.seq ≥ drow.seq then none else
    let delay_o := if rt then (alookup dl.trip_stop_delay (tid, o)).getD
      ((alookup dl.trip_delay tid).getD 0) else 0
    let delay_d := if rt then (alookup dl.trip_stop_delay (tid, d)).getD
      ((alookup dl.trip_delay tid).getD 0) else 0
    let dep := orow.dep_sec + delay_o
    let arr := drow.arr_sec + delay_d
    if dep ≥ after - 90 then some ⟨tid, rid, dep, arr, orow, drow⟩ else none
  | _, _ => none

/-- Embedding of `find_direct_trips(o_stop, d_stop, depart_after_sec,
rt_delays)`: same-trip rides through both stops in order, with realtime
delay adjustment (stop-level preferred, trip-level fallback), accepted
when the adjusted departure is at least `depart_after - 90`, sorted by
adjusted arrival. -/
def find_direct_trips (st : Static) (dl : Delays) (o d : String)
    (after : ℤ) (rt : Bool) : List TripCand :=
  let common := (routesAt st o).filter (fun r => r ∈ routesAt st d)
  let cands := common.flatMap (fun rid =>
    ((alookup st.trips_by_route rid).getD []).filterMap
      (directCandidate st dl o d after rt rid))
  sortLe (fun a b => decide (a.arr ≤ b.arr)) cands

/-- Embedding of `nearest_stops(lat, lon, limit, max_m)`; `hav` abstracts
`haversine_m`. -/
def nearest_stops (hav : ℚ → ℚ → ℚ → ℚ → ℚ) (st : Static) (lat lon : ℚ)
    (lim : ℕ) (max_m : ℚ) : List (String × ℚ) :=
  let rows := st.stops.filterMap (fun p =>
    let d := hav lat lon p.2.lat p.2.lon
    if d ≤ max_m then some (p.1, d) else none)
  (sortLe (fun a b => decide (a.2 ≤ b.2)) rows).take lim

/-- Lookup in `STOPS`; the Python code indexes the dict directly (the
planner only does so for keys it obtained from the index). -/
def stopInfo (st : Static) (sid : String) : StopInfo :=
  (alookup st.stops sid).getD ⟨"", 0, 0⟩

/-- A turn-by-turn step of a provider walking route. -/
structure Step where
  maneuver : String
  distance_m : ℚ
  duration_s : ℤ
  name : String
deriving DecidableEq

/-- One entry of `safety_matches`: either a danger-map match (first four
fields) or a zone evidence record (last four), mirroring the two dict
shapes appended by the two annotators. -/
structure SafetyMatch where
  name : Option String
  danger : Option ℤ
  safety : Option ℚ
  distance_m : Option ℚ
  source : Option String
  lat : Option ℚ
  lng : Option ℚ
  score : Option ℚ
deriving DecidableEq

/-- An `alt_options` entry attached by the walk-enhancement phase. -/
structure AltOption where
  geometry : Option (List (ℚ × ℚ))
  steps : Option (List Step)
  duration_sec : ℤ
  safety_score : Option ℚ
  safety_zones_score : Option ℚ
  biased_duration_sec : ℤ
  summary : Option String
deriving DecidableEq

/-- The `Leg` model of `nav.py` (geometry points are `(lng, lat)`). -/
structure Leg where
  mode : String
  from_name : String
  to_name : String
  from_lat : ℚ
  from_lng : ℚ
  to_lat : ℚ
  to_lng : ℚ
  route : Option String
  trip_id : Option String
  dep_time : Option String
  arr_time : Option String
  duration_sec : ℤ
  geometry : Option (List (ℚ × ℚ))
  steps : Option (List Step)
  safety_zones_score : Option ℚ
  safety_score : Option ℚ
  safety_matches : Option (List SafetyMatch)
  alt_options : Option (List AltOption)
  walk_summary : Option String
deriving DecidableEq

/-- The `Itinerary` model of `nav.py`. -/
structure Itinerary where
  duration_sec : ℤ
  depart_time : String
  arrive_time : String
  transfers : ℤ
  legs : List Leg
  notes : Option String
deriving DecidableEq

/-- Embedding of `build_walk_leg` (default speed 5 km/h); `hav` abstracts
`haversine_m`. -/
def build_walk_leg (hav : ℚ → ℚ → ℚ → ℚ → ℚ) (name_a : String)
    (lat_a lon_a : ℚ) (name_b : String) (lat_b lon_b : ℚ) : Leg :=
  let d := hav lat_a lon_a lat_b lon_b
  let sec := pyInt (d / (5 * 1000 / 3600))
  ⟨"WALK", name_a, name_b, lat_a, lon_a, lat_b, lon_b, none, none, none, none,
    max 0 sec, none, none, none, none, none, none, none⟩

/-- Embedding of `build_transit_leg`. -/
def build_transit_leg (st : Static) (o d : String) (t : TripCand) : Leg :=
  let rs := (alookup st.routes t.route_id).getD ⟨"", "", ""⟩
  let rname := if rs.short ≠ "" then rs.short
               else if rs.long ≠ "" then rs.long else t.route_id
  let s_o := stopInfo st o
  let s_d := stopInfo st d
  ⟨"TRANSIT", s_o.name ++ " (" ++ rname ++ ")", s_d.name ++ " (" ++ rname ++ ")",
    s_o.lat, s_o.lon, s_d.lat, s_d.lon, some rname, some t.trip_id,
    some (s2t t.dep), some (s2t t.arr), max 0 (t.arr - t.dep),
    none, none, none, none, none, none, none⟩

/-- Embedding of `plan_direct`. -/
def plan_direct (hav : ℚ → ℚ → ℚ → ℚ → ℚ) (st : Static) (dl : Delays)
    (flat flng tlat tlng : ℚ) (after : ℤ) (max_walk : ℚ) (rt : Bool) :
    List Itinerary :=
  let near_o := nearest_stops hav st flat flng 10 max_walk
  let near_d := nearest_stops hav st tlat tlng 10 max_walk
  if near_o.isEmpty || near_d.isEmpty then [] else
  let out := (near_o.take 6).flatMap (fun op =>
    (near_d.take 6).flatMap (fun dp =>
      ((find_direct_trips st dl op.1 dp.1 after rt).take 2).map (fun t =>
        let so := stopInfo st op.1
        let sd := stopInfo st dp.1
        let walk1 := build_walk_leg hav "Origin" flat flng so.name so.lat so.lon
        let ride := build_transit_leg st op.1 dp.1 t
        let walk2 := build_walk_leg hav sd.name sd.lat sd.lon "Destination" tlat tlng
        { duration_sec := walk1.duration_sec + (t.arr - t.dep) + walk2.duration_sec,
          depart_time := s2t (max after (t.dep - walk1.duration_sec)),
          arrive_time := s2t (t.arr + walk2.duration_sec),
          transfers := 0,
          legs := [walk1, ride, walk2],
          notes := some "Direct route" })))
  let sorted := sortLe (fun a b => decide (a.duration_sec ≤ b.duration_sec)) out
  (dedupBy (fun it => ((it.legs.get? 1).bind Leg.route, it.depart_time, it.arrive_time))
    sorted).take 5

/-- The interchange heuristic of `plan_one_transfer`: all stops sorted by
descending served-route count (stable), first 100. -/
def interchanges (st : Static) : List String :=
  (sortLe (fun a b =>
      decide ((-(((routesAt st a).length : ℤ))) ≤ (-(((routesAt st b).length : ℤ)))))
    (st.stops.map (fun p => p.1))).take 100

/-- One transfer choice collected by the `plan_one_transfer` loop nest. -/
structure TChoice where
  o_stop : String
  x_stop : String
  d_stop : String
  t1 : TripCand
  t2 : TripCand
deriving DecidableEq

/-- The loop nest of `plan_one_transfer`: origin stop × interchange ×
first-leg trip (≤ 2) × destination stop × fastest second-leg trip after
`t1.arr + 120`. -/
def transferCandidates (st : Static) (dl : Delays)
    (o_stops d_stops xs : List String) (after : ℤ) (rt : Bool) : List TChoice :=
  o_stops.flatMap (fun o =>
    xs.flatMap (fun x =>
      if o = x then [] else
      ((find_direct_trips st dl o x after rt).take 2).flatMap (fun t1 =>
        d_stops.flatMap (fun d =>
          ((find_direct_trips st dl x d (t1.arr + 120) rt).take 1).map (fun t2 =>
            (⟨o, x, d, t1, t2⟩ : TChoice))))))

/-- The itinerary built from one transfer choice (the body of the
`out.append` in `plan_one_transfer`). -/
def buildTransferItinerary (hav : ℚ → ℚ → ℚ → ℚ → ℚ) (st : Static)
    (flat flng tlat tlng : ℚ) (after : ℤ) (c : TChoice) : Itinerary :=
  let so := stopInfo st c.o_stop
  let sd := stopInfo st c.d_stop
  let walk1 := build_walk_leg hav "Origin" flat flng so.name so.lat so.lon
  let ride1 := build_transit_leg st c.o_stop c.x_stop c.t1
  let ride2 := build_transit_leg st c.x_stop c.d_stop c.t2
  let walk2 := build_walk_leg hav sd.name sd.lat sd.lon "Destination" tlat tlng
  { duration_sec := walk1.duration_sec + (c.t1.arr - c.t1.dep) +
      (c.t2.arr - c.t2.dep) + walk2.duration_sec,
    depart_time := s2t (max after (c.t1.dep - walk1.duration_sec)),
    arrive_time := s2t (c.t2.arr + walk2.duration_sec),
    transfers := 1,
    legs := [walk1, ride1, ride2, walk2],
    notes := some ("Transfer at " ++ (stopInfo st c.x_stop).name) }

/-- The near-duplicate signature of `plan_one_transfer`. -/
def transferSig (it : Itinerary) : ℤ × Option String × Option String × String :=
  (it.transfers, (it.legs.get? 1).bind Leg.route,
    if it.transfers = 1 then (it.legs.get? (it.legs.length - 2)).bind Leg.route
    else some "",
    it.depart_time)

/-- Embedding of `plan_one_transfer`. -/
def plan_one_transfer (hav : ℚ → ℚ → ℚ → ℚ → ℚ) (st : Static) (dl : Delays)
    (flat flng tlat tlng : ℚ) (after : ℤ) (max_walk : ℚ) (rt : Bool) :
    List Itinerary :=
  let near_o := nearest_stops hav st flat flng 10 max_walk
  let near_d := nearest_stops hav st tlat tlng 10 max_walk
  if near_o.isEmpty || near_d.isEmpty then [] else
  let o_stops := (near_o.take 6).map (fun p => p.1)
  let d_stops := (near_d.take 6).map (fun p => p.1)
  let out := (transferCandidates st dl o_stops d_stops (interchanges st) after rt).map
    (buildTransferItinerary hav st flat flng tlat tlng after)
  let sorted := sortLe (fun a b => decide (a.duration_sec ≤ b.duration_sec)) out
  (dedupBy transferSig sorted).take 5

/-! ## Safety overlay (`nav.py` lines 479–653) -/

/-- The normalized danger map (`DANGER_MAP`); `defaultDanger` embeds the
`"default"` key. -/
structure DangerMap where
  roads : List (String × ℤ)
  types : List (String × ℤ)
  defaultDanger : ℤ
deriving DecidableEq

/-- A normalized circle safety zone. -/
structure Zone where
  lat : ℚ
  lng : ℚ
  radius_m : ℚ
  score : ℚ
  label : String
deriving DecidableEq

/-- Embedding of `_danger_to_safety`: clamp to 1..10 and map linearly to
safety `1..0`, rounded to three decimals. -/
def _danger_to_safety (danger : ℤ) : ℚ :=
  let d := max 1 (min 10 danger)
  pyRound3 (1 - ((d : ℚ) - 1) / 9)

/-- Embedding of `_infer_type_from_name`. -/
def _infer_type_from_name (name : String) : Option String :=
  let n := name.toLower
  if strHas "alley" n then some "alley"
  else if strHas "trail" n || strHas "path" n || strHas "walk" n then some "trail"
  else if strHas "way" n then some "arterial"
  else if strHas "ave" n || strHas "avenue" n || strHas "st " n ||
          strHas "street" n || strHas "blvd" n then some "street"
  else none

/-- The per-step danger lookup of `annotate_leg_from_danger_map`:
exact road name, else inferred type, else the default. -/
def stepDanger (dm : DangerMap) (name : String) : ℤ :=
  match alookup dm.roads name.toLower with
  | some d => d
  | none =>
    match _infer_type_from_name name with
    | some ty => (alookup dm.types ty).getD dm.defaultDanger
    | none => dm.defaultDanger

/-- Embedding of `annotate_leg_from_danger_map`. -/
def annotate_leg_from_danger_map (dm : DangerMap) (leg : Leg) : Leg :=
  let steps := leg.steps.getD []
  if steps.isEmpty then
    let s := _danger_to_safety dm.defaultDanger
    { leg with
      safety_score := some s,
      safety_matches := some [⟨none, some dm.defaultDanger, some s, none, none, none, none, none⟩] }
  else
    let scored := steps.map (fun stp =>
      let nm := stp.name.trim
      let danger := stepDanger dm nm
      (nm, danger, _danger_to_safety danger, stp.distance_m))
    let matchList := scored.map (fun p =>
      (⟨some p.1, some p.2.1, some p.2.2.1, some p.2.2.2, none, none, none, none⟩ : SafetyMatch))
    let total_dist := (scored.map (fun p => p.2.2.2)).sum
    let weighted := (scored.map (fun p => p.2.2.1 * p.2.2.2)).sum
    if total_dist ≤ 0 then
      let avg := if matchList.isEmpty then _danger_to_safety dm.defaultDanger
                 else ((scored.map (fun p => p.2.2.1)).sum) / (matchList.length : ℚ)
      { leg with safety_score := some (pyRound3 avg), safety_matches := some matchList }
    else
      { leg with safety_score := some (pyRound3 (weighted / total_dist)), safety_matches := some matchList }

/-- Embedding of `_zone_score_at`: highest covering-zone score, `hav`
abstracting `haversine_m` in `_point_in_circle`. -/
def _zone_score_at (hav : ℚ → ℚ → ℚ → ℚ → ℚ) (zones : List Zone)
    (lat lng : ℚ) : Option ℚ :=
  zones.foldl (fun best z =>
    if hav lat lng z.lat z.lng ≤ z.radius_m then
      match best with
      | none => some z.score
      | some b => some (max b z.score)
    else best) none

/-- Embedding of `annotate_leg_from_zones`: sample every 4th geometry
vertex (or endpoints and midpoint), average the covering-zone maxima. -/
def annotate_leg_from_zones (hav : ℚ → ℚ → ℚ → ℚ → ℚ) (zones : List Zone)
    (leg : Leg) : Leg :=
  let geom := leg.geometry.getD []
  let samples : List (ℚ × ℚ) :=
    if geom.isEmpty then
      [(leg.from_lat, leg.from_lng),
       ((leg.from_lat + leg.to_lat) / 2, (leg.from_lng + leg.to_lng) / 2),
       (leg.to_lat, leg.to_lng)]
    else geom.enum.filterMap (fun p =>
      if p.1 % 4 = 0 then some (p.2.2, p.2.1) else none)
  let hits := samples.filterMap (fun p =>
    (_zone_score_at hav zones p.1 p.2).map (fun s => (p.1, p.2, s)))
  let values := hits.map (fun h => h.2.2)
  if values.isEmpty then leg
  else
    let evid := hits.map (fun h =>
      (⟨none, none, none, none, some "zone", some h.1, some h.2.1, some (pyRound3 h.2.2)⟩ : SafetyMatch))
    { leg with
      safety_zones_score := some (pyRound3 (values.sum / (values.length : ℚ))),
      safety_matches := some ((leg.safety_matches.getD []) ++ evid) }

/-- The two-source combination done after both annotators in the `plan`
pipeline: mean of the parts that exist. -/
def combineParts (leg : Leg) : Leg :=
  let parts := ([leg.safety_score, leg.safety_zones_score].filterMap id)
  if parts.isEmpty then leg
  else { leg with safety_score := some (pyRound3 (parts.sum / (parts.length : ℚ))) }

/-- Full annotation of one walking leg: danger map, then zones, then the
parts combination — the sequence used everywhere in the `plan` pipeline. -/
def annotateWalkLeg (dm : DangerMap) (zones : List Zone)
    (hav : ℚ → ℚ → ℚ → ℚ → ℚ) (leg : Leg) : Leg :=
  combineParts (annotate_leg_from_zones hav zones (annotate_leg_from_danger_map dm leg))

/-- The safety duration bias (lines 947–952 and its copies): applied when
`safety ∈ {prefer, strict}` and a score exists; `int()` truncation. -/
def biasDuration (mode : String) (dur : ℤ) (score : Option ℚ) : ℤ :=
  if mode = "prefer" || mode = "strict" then
    match score with
    | some s => pyInt ((dur : ℚ) * (1 + (1 - s) * (if mode = "prefer" then 0.3 else 0.6)))
    | none => dur
  else dur

/-- The annotation part of the loop of `plan` (lines 937–945): a walk leg
already scored by the enhancement phase is kept as is, any other walk leg
is annotated and its parts combined. -/
def annotationStage (enhance : Bool) (dm : DangerMap) (zones : List Zone)
    (hav : ℚ → ℚ → ℚ → ℚ → ℚ) (leg : Leg) : Leg :=
  if enhance && !((leg.safety_matches.getD []).isEmpty) then leg
  else annotateWalkLeg dm zones hav leg

/-- One leg of the annotate-then-bias loop of `plan` (lines 933–952):
non-walk legs pass through; a walk leg already scored by the enhancement
phase skips re-annotation; the bias always runs. -/
def processWalkLeg (enhance : Bool) (dm : DangerMap) (zones : List Zone)
    (hav : ℚ → ℚ → ℚ → ℚ → ℚ) (mode : String) (leg : Leg) : Leg :=
  if leg.mode ≠ "WALK" then leg else
  let leg1 := annotationStage enhance dm zones hav leg
  { leg1 with duration_sec := biasDuration mode leg1.duration_sec leg1.safety_score }

/-! ## Walk enhancement and the `/plan` pipeline -/

/-- One route returned by the Walk Directions Provider
(`fetch_walking_routes_mapbox` output entries). -/
structure WalkRoute where
  geometry : List (ℚ × ℚ)
  steps : List Step
  duration_sec : ℤ
  summary : String
deriving DecidableEq

/-- Python `min` tail: first element attaining the minimum key. -/
def pyMinByAux {α : Type} (key : α → ℤ) (best : α) : List α → α
  | [] => best
  | a :: t => if key a < key best then pyMinByAux key a t else pyMinByAux key best t

/-- One scored candidate of the enhancement phase (lines 864–900): the
temporary leg and its biased duration. -/
def enhanceCandidate (dm : DangerMap) (zones : List Zone)
    (hav : ℚ → ℚ → ℚ → ℚ → ℚ) (mode : String) (leg : Leg) (rt : WalkRoute) :
    Leg × ℤ :=
  let tmp : Leg :=
    { mode := "WALK", from_name := leg.from_name, to_name := leg.to_name,
      from_lat := leg.from_lat, from_lng := leg.from_lng,
      to_lat := leg.to_lat, to_lng := leg.to_lng,
      route := none, trip_id := none, dep_time := none, arr_time := none,
      duration_sec := if rt.duration_sec ≠ 0 then rt.duration_sec else leg.duration_sec,
      geometry := some rt.geometry, steps := some rt.steps,
      safety_zones_score := none, safety_score := none, safety_matches := none,
      alt_options := none,
      walk_summary := if rt.summary ≠ "" then some rt.summary else none }
  let tmp1 := annotateWalkLeg dm zones hav tmp
  (tmp1, biasDuration mode tmp1.duration_sec tmp1.safety_score)

/-- An `alt_options` entry from a non-chosen candidate. -/
def toAltOption (c : Leg × ℤ) : AltOption :=
  ⟨c.1.geometry, c.1.steps, c.1.duration_sec, c.1.safety_score,
    c.1.safety_zones_score, c.2, c.1.walk_summary⟩

/-- The enhancement of one leg (lines 849–930): fetch candidate walking
routes, choose the minimum biased duration (first minimum, as Python
`min`), attach the remaining candidates as alternatives.  Python removes
the chosen candidate by object identity, embedded as removal by index. -/
def enhanceWalkLeg (provider : ℚ → ℚ → ℚ → ℚ → ℕ → Option (List WalkRoute))
    (dm : DangerMap) (zones : List Zone) (hav : ℚ → ℚ → ℚ → ℚ → ℚ)
    (mode : String) (walk_alts : ℕ) (leg : Leg) : Leg :=
  if leg.mode ≠ "WALK" then leg else
  match provider leg.from_lat leg.from_lng leg.to_lat leg.to_lng
      (if walk_alts > 0 then walk_alts else 0) with
  | none => leg
  | some [] => leg
  | some (r0 :: rs) =>
    let candidates := (r0 :: rs).map (enhanceCandidate dm zones hav mode leg)
    let idx := pyArgmin (fun c => c.2) candidates
    let best := candidates.getD idx (enhanceCandidate dm zones hav mode leg r0)
    let others := candidates.eraseIdx idx
    { leg with
      geometry := best.1.geometry,
      steps := best.1.steps,
      duration_sec := best.1.duration_sec,
      safety_score := best.1.safety_score,
      safety_zones_score := best.1.safety_zones_score,
      safety_matches := best.1.safety_matches,
      walk_summary := best.1.walk_summary,
      alt_options := if walk_alts > 0 && !others.isEmpty then some ((others.take walk_alts).map toAltOption) else none }

/-- Query parameters of one `/plan` request. -/
structure PlanParams where
  from_lat : ℚ
  from_lng : ℚ
  to_lat : ℚ
  to_lng : ℚ
  depart_now : Bool
  depart_time_s : Option ℤ
  max_transfers : ℤ
  max_walk_m : ℚ
  use_realtime : Bool
  enhance_walk : Bool
  walk_alternatives : ℕ
  safety : String
  reject_walk_below : Option ℚ
  allow_walk_only : Bool
  walk_only_max_m : ℚ

/-- Server state visible to one `/plan` request. -/
structure NavEnv where
  st : Static
  dl : Delays
  trip_updates_url : String
  now_sec : ℤ
  dm : DangerMap
  zones : List Zone

/-- The 404 failures `plan` can raise. -/
inductive PlanError where
  | noItinerary : PlanError
  | safetyFilterAll : ℚ → PlanError
  | walkOnlyRejected : ℚ → PlanError
deriving DecidableEq

/-- Average walking safety of an itinerary (the tie-break key of the
final sort); 0.5 when no walk leg is scored. -/
def avg_walk_safety (it : Itinerary) : ℚ :=
  let vals := it.legs.filterMap (fun leg =>
    if leg.mode = "WALK" then leg.safety_score else none)
  if vals.isEmpty then 1/2 else vals.sum / (vals.length : ℚ)

/-- The comparison of the final sort under `safety ∈ {prefer, strict}`:
ascending `(duration_sec, -avg_walk_safety)` lexicographically. -/
def finalSortLe (a b : Itinerary) : Bool :=
  decide (a.duration_sec < b.duration_sec ∨
    (a.duration_sec = b.duration_sec ∧ avg_walk_safety b ≤ avg_walk_safety a))

/-- Whether the minimum walking safety score of an itinerary falls below
the threshold (the drop condition of the hard safety filter). -/
def minWalkBelow (th : ℚ) (it : Itinerary) : Bool :=
  let ws := it.legs.filterMap (fun leg =>
    if leg.mode = "WALK" then leg.safety_score else none)
  match ws with
  | [] => false
  | v :: vs => decide (vs.foldl min v < th)

/-- The tail of `plan` (lines 970–981): recompute totals, final sort when
`safety ∈ {prefer, strict}`, first five. -/
def planFinish (p : PlanParams) (l : List Itinerary) :
    Except PlanError (List Itinerary) :=
  let l1 := l.map (fun it =>
    { it with duration_sec := (it.legs.map Leg.duration_sec).sum })
  let l2 := if p.safety = "prefer" || p.safety = "strict" then
      sortLe finalSortLe l1 else l1
  .ok (l2.take 5)

/-- The walk-only fallback branch of `plan` (lines 770–845). -/
def walkOnlyFallback (provider : ℚ → ℚ → ℚ → ℚ → ℕ → Option (List WalkRoute))
    (hav : ℚ → ℚ → ℚ → ℚ → ℚ) (env : NavEnv) (p : PlanParams)
    (depart_after : ℤ) (reject : Option ℚ) : Except PlanError (List Itinerary) :=
  if p.allow_walk_only then
    let dist := hav p.from_lat p.from_lng p.to_lat p.to_lng
    if dist ≤ p.walk_only_max_m then
      let routes := provider p.from_lat p.from_lng p.to_lat p.to_lng
        (if p.enhance_walk && p.walk_alternatives > 0 then p.walk_alternatives else 0)
      let candidates : List (Leg × ℤ) :=
        match routes with
        | some (r0 :: rs) => (r0 :: rs).map (fun rt =>
            let dsec : ℤ := if rt.duration_sec ≠ 0 then rt.duration_sec else max 1 (pyInt (dist / (5 * 1000 / 3600)))
            let summ : Option String := if rt.summary ≠ "" then some rt.summary else none
            let tmp : Leg :=
              { mode := "WALK", from_name := "Origin", to_name := "Destination",
                from_lat := p.from_lat, from_lng := p.from_lng,
                to_lat := p.to_lat, to_lng := p.to_lng,
                route := none, trip_id := none, dep_time := none, arr_time := none,
                duration_sec := dsec,
                geometry := some rt.geometry, steps := some rt.steps,
                safety_zones_score := none, safety_score := none,
                safety_matches := none, alt_options := none,
                walk_summary := summ }
            let tmp1 := annotateWalkLeg env.dm env.zones hav tmp
            (tmp1, biasDuration p.safety tmp1.duration_sec tmp1.safety_score))
        | _ =>
            let tmp := build_walk_leg hav "Origin" p.from_lat p.from_lng
              "Destination" p.to_lat p.to_lng
            let tmp1 := annotateWalkLeg env.dm env.zones hav tmp
            [(tmp1, biasDuration p.safety tmp1.duration_sec tmp1.safety_score)]
      match candidates with
      | [] => .error .noItinerary
      | c0 :: cs =>
        let best := pyMinByAux (fun c => c.2) c0 cs
        let wleg := best.1
        let okRes : Except PlanError (List Itinerary) :=
          .ok [{ duration_sec := wleg.duration_sec,
                 depart_time := s2t depart_after,
                 arrive_time := s2t (depart_after + wleg.duration_sec),
                 transfers := 0, legs := [wleg],
                 notes := some "Walk-only fallback" }]
        match reject, wleg.safety_score with
        | some th, some s => if s < th then .error (.walkOnlyRejected th) else okRes
        | _, _ => okRes
    else .error .noItinerary
  else .error .noItinerary

/-- Embedding of the `/plan` endpoint.  The `refresh_rt` side effect is a
re-run of the delay fetcher (modelled separately, §realtime); `provider`
abstracts `fetch_walking_routes_mapbox` (returning `none` on missing
token or fetch failure); `hav` abstracts `haversine_m`. -/
def plan (provider : ℚ → ℚ → ℚ → ℚ → ℕ → Option (List WalkRoute))
    (hav : ℚ → ℚ → ℚ → ℚ → ℚ) (env : NavEnv) (p : PlanParams) :
    Except PlanError (List Itinerary) :=
  let depart_after := if p.depart_now || !(pyTruthyInt p.depart_time_s)
    then env.now_sec else p.depart_time_s.getD 0
  let reject := if p.safety = "strict" && p.reject_walk_below.isNone
    then some (2/5 : ℚ) else p.reject_walk_below
  let rt := p.use_realtime && decide (env.trip_updates_url ≠ "")
  let direct := plan_direct hav env.st env.dl p.from_lat p.from_lng
    p.to_lat p.to_lng depart_after p.max_walk_m rt
  let its := direct ++
    (if p.max_transfers ≥ 1 && decide (direct.length < 3) then
      plan_one_transfer hav env.st env.dl p.from_lat p.from_lng
        p.to_lat p.to_lng depart_after p.max_walk_m rt
     else [])
  if its.isEmpty then walkOnlyFallback provider hav env p depart_after reject
  else
    let its1 := if p.enhance_walk then
        its.map (fun it => { it with legs := it.legs.map (enhanceWalkLeg provider env.dm env.zones hav p.safety p.walk_alternatives) })
      else its
    let its2 := its1.map (fun it => { it with legs := it.legs.map (processWalkLeg p.enhance_walk env.dm env.zones hav p.safety) })
    match reject with
    | some th =>
      let survivors := its2.filter (fun it => !(minWalkBelow th it))
      if survivors.isEmpty then .error (.safetyFilterAll th)
      else planFinish p survivors
    | none => planFinish p its2

/-! ## Realtime delay cache (`fetch_trip_updates`, lines 129–160)

Concurrency is embedded as the sequence of module-level states a reader
could observe while the fetcher mutates the two global dicts.  Each dict
`clear()` and `update()` is one atomic step (CPython executes each as one
bytecode-protected dict operation); the fetcher performs them in the
order `TRIP_DELAY.clear(); TRIP_DELAY.update(td); TRIP_STOP_DELAY.clear();
TRIP_STOP_DELAY.update(tsd)`. -/

/-- The pair of module-level delay dicts. -/
structure DelayMaps where
  trip : List (String × ℤ)
  stop : List ((String × String) × ℤ)
deriving DecidableEq

/-- States observable during a successful poll, in program order:
initial, after `TRIP_DELAY.clear()`, after `TRIP_DELAY.update(td)`,
after `TRIP_STOP_DELAY.clear()`, after `TRIP_STOP_DELAY.update(tsd)`. -/
def fetchSuccessStates (old : DelayMaps) (td : List (String × ℤ))
    (tsd : List ((String × String) × ℤ)) : List DelayMaps :=
  [old, ⟨[], old.stop⟩, ⟨td, old.stop⟩, ⟨td, []⟩, ⟨td, tsd⟩]

/-- States observable when the fetch or parse raises: the exception is
swallowed before any mutation, so only the previous snapshot exists. -/
def fetchFailureStates (old : DelayMaps) : List DelayMaps := [old]

/-! ## Concrete instances used to exercise the model -/

/-- Distance function that is identically zero (all points coincide). -/
def hav0 : ℚ → ℚ → ℚ → ℚ → ℚ := fun _ _ _ _ => 0

/-- Distance function returning 5 everywhere (used as kilometres). -/
def hav5 : ℚ → ℚ → ℚ → ℚ → ℚ := fun _ _ _ _ => 5

/-- Discrete distance: 0 between equal points, 10000 m otherwise. -/
def havC6 : ℚ → ℚ → ℚ → ℚ → ℚ := fun alat alng blat blng =>
  if alat = blat ∧ alng = blng then 0 else 10000

/-- Walk Directions Provider with no token / failing fetch. -/
def provider0 : ℚ → ℚ → ℚ → ℚ → ℕ → Option (List WalkRoute) := fun _ _ _ _ _ => none

/-- Backend state: one stop, no reports, no live payload, epoch 1234. -/
def env1 : BackendEnv := ⟨[⟨1, "S", 0, 0⟩], [], none, 0, 1234⟩

/-- The default `/eta` query on stop 1. -/
def q1 : EtaQuery := ⟨1, none, "transit", none⟩

/-- The `/eta` query on stop 1 in walking mode with an origin. -/
def qw : EtaQuery := ⟨1, none, "walking", some (1, 1)⟩

/-- Backend state with one fresh report (arrival 1 s) and one live item
(eta 2 s) for stop 1. -/
def envf : BackendEnv := ⟨[⟨1, "S", 0, 0⟩], [⟨1, "", 1, 0⟩], some [⟨"1", "", some 2⟩], 0, 50⟩

/-- GTFS index: three stops on a line `O → X → D`, trip `T1` on route `R1`
covering `O → X` (dep 900, arr 1000) and trip `T2` on route `R2` covering
`X → D` (dep 1030, arr 1100). -/
def stT : Static :=
  ⟨[("O", ⟨"O st", 0, 0⟩), ("X", ⟨"X st", 0, 0⟩), ("D", ⟨"D st", 0, 0⟩)],
   [("R1", ⟨"R1", "", "3"⟩), ("R2", ⟨"R2", "", "3"⟩)],
   [("R1", ["T1"]), ("R2", ["T2"])],
   [("T1", [⟨"T1", "O", 900, 900, 1⟩, ⟨"T1", "X", 1000, 1000, 2⟩]),
    ("T2", [⟨"T2", "X", 1030, 1030, 1⟩, ⟨"T2", "D", 1100, 1100, 2⟩])],
   [("O", ["R1"]), ("X", ["R1", "R2"]), ("D", ["R2"])]⟩

/-- Empty realtime snapshot. -/
def dl0 : Delays := ⟨[], []⟩

/-- The transfer choice `plan_one_transfer` finds on `stT` from 900:
`T1` to the interchange `X`, then `T2` departing 1030 — only 30 s after
`T1` arrives. -/
def cT : TChoice :=
  ⟨"O", "X", "D",
   ⟨"T1", "R1", 900, 1000, ⟨"T1", "O", 900, 900, 1⟩, ⟨"T1", "X", 1000, 1000, 2⟩⟩,
   ⟨"T2", "R2", 1030, 1100, ⟨"T2", "X", 1030, 1030, 1⟩, ⟨"T2", "D", 1100, 1100, 2⟩⟩⟩

/-- GTFS index with distinct coordinates: slow direct trip `TD` on `RD`
(`O → D`, 900 → 2000) beside the fast transfer `T1`/`T2` of `stT`. -/
def stC6 : Static :=
  ⟨[("O", ⟨"O st", 1, 1⟩), ("X", ⟨"X st", 2, 2⟩), ("D", ⟨"D st", 3, 3⟩)],
   [("R1", ⟨"R1", "", "3"⟩), ("R2", ⟨"R2", "", "3"⟩), ("RD", ⟨"RD", "", "3"⟩)],
   [("R1", ["T1"]), ("R2", ["T2"]), ("RD", ["TD"])],
   [("T1", [⟨"T1", "O", 900, 900, 1⟩, ⟨"T1", "X", 1000, 1000, 2⟩]),
    ("T2", [⟨"T2", "X", 1030, 1030, 1⟩, ⟨"T2", "D", 1100, 1100, 2⟩]),
    ("TD", [⟨"TD", "O", 900, 900, 1⟩, ⟨"TD", "D", 2000, 2000, 2⟩])],
   [("O", ["R1", "RD"]), ("X", ["R1", "R2"]), ("D", ["R2", "RD"])]⟩

/-- Danger map with only the default score 5. -/
def dm5 : DangerMap := ⟨[], [], 5⟩

/-- Danger map with only the default score 10 (most dangerous). -/
def dm10 : DangerMap := ⟨[], [], 10⟩

/-- Planner environment over `stC6` with no realtime URL and no zones. -/
def envC6 : NavEnv := ⟨stC6, dl0, "", 900, dm5, []⟩

/-- A `/plan` request across `stC6` with `safety = off`. -/
def pOff : PlanParams := ⟨1, 1, 3, 3, true, none, 1, 800, true, false, 0, "off", none, true, 5000⟩

/-- Empty GTFS index (no stops at all). -/
def stEmpty : Static := ⟨[], [], [], [], []⟩

/-- Planner environment with no transit data. -/
def envW : NavEnv := ⟨stEmpty, dl0, "", 600, dm5, []⟩

/-- A `/plan` request with `safety = prefer` that falls back to a
walk-only itinerary. -/
def pW : PlanParams := ⟨0, 0, 0, 0, true, none, 1, 800, true, false, 0, "prefer", none, true, 5000⟩

/-- The list of itineraries `plan` returns on the walk-only instance. -/
def planPreferResult : List Itinerary := (plan provider0 hav0 envW pW).toOption.getD []

/-- A walking leg of three seconds with no annotations yet. -/
def w3 : Leg :=
  ⟨"WALK", "Origin", "Destination", 0, 0, 0, 0, none, none, none, none, 3,
   none, none, none, none, none, none, none⟩

/-! ## Lemmas about the crowd fusion -/

theorem weight_pos (age : ℚ) : 0 < weight age := Real.exp_pos _

theorem weight_zero : weight 0 = 1 := by simp [weight]

theorem wsum_fold_fst (l : List (ℤ × ℚ)) : ∀ x y : ℝ,
    (l.foldl (fun acc p => (acc.1 + weight p.2, acc.2 + (p.1 : ℝ) * weight p.2)) (x, y)).1
      = x + (l.map (fun p => weight p.2)).sum := by
  induction l with
  | nil => intro x y; simp
  | cons a t ih =>
    intro x y
    simp only [List.foldl_cons, List.map_cons, List.sum_cons, ih]
    ring

theorem wsum_fst_pos (l : List (ℤ × ℚ)) (h : l ≠ []) : 0 < (wsum l).1 := by
  have hfst : (wsum l).1 = 0 + (l.map (fun p => weight p.2)).sum := wsum_fold_fst l 0 0
  rw [hfst, zero_add]
  apply List.sum_pos
  · intro x hx
    rcases List.mem_map.mp hx with ⟨p, _, rfl⟩
    exact weight_pos _
  · simpa using h

/-- C10: every non-empty report list yields a value; the total weight is a
sum of strictly positive exponentials, so the `total_w > 0` guard of
`weighted_avg_reports` always holds and its `None` branch is unreachable. -/
theorem weighted_avg_reports_total_weight_pos (l : List (ℤ × ℚ)) (h : l ≠ []) :
    0 < (wsum l).1 ∧ (weighted_avg_reports l).isSome = true := by
  refine ⟨wsum_fst_pos l h, ?_⟩
  match l with
  | [] => exact absurd rfl h
  | a :: t =>
    show (if 0 < (wsum (a :: t)).1 then some (pyIntR ((wsum (a :: t)).2 / (wsum (a :: t)).1))
          else none).isSome = true
    rw [if_pos (wsum_fst_pos _ h)]
    rfl

/-- Witness for C10 at the single report `(5, 0)`. -/
theorem weighted_avg_reports_total_weight_pos_witness :
    0 < (wsum [((5 : ℤ), (0 : ℚ))]).1 ∧
    (weighted_avg_reports [((5 : ℤ), (0 : ℚ))]).isSome = true :=
  weighted_avg_reports_total_weight_pos _ (by decide)

/-- C4 (amended): on every non-empty report list the result is the
recency-weighted mean truncated with Python `int()` (not rounded). -/
theorem weighted_avg_reports_eq_trunc_mean (l : List (ℤ × ℚ)) (h : l ≠ []) :
    weighted_avg_reports l = some (pyIntR ((wsum l).2 / (wsum l).1)) := by
  match l with
  | [] => exact absurd rfl h
  | a :: t =>
    show (if 0 < (wsum (a :: t)).1 then some (pyIntR ((wsum (a :: t)).2 / (wsum (a :: t)).1))
          else none) = _
    rw [if_pos (wsum_fst_pos _ h)]

/-- Witness for C4 at the single report `(240, 0)` (weight 1, mean 240). -/
theorem weighted_avg_reports_eq_trunc_mean_witness :
    weighted_avg_reports [((240 : ℤ), (0 : ℚ))] =
      some (pyIntR ((wsum [((240 : ℤ), (0 : ℚ))]).2 / (wsum [((240 : ℤ), (0 : ℚ))]).1)) ∧
    weighted_avg_reports [((240 : ℤ), (0 : ℚ))] = some 240 := by
  have happ := weighted_avg_reports_eq_trunc_mean [((240 : ℤ), (0 : ℚ))] (by decide)
  have hws : wsum [((240 : ℤ), (0 : ℚ))] = ((1 : ℝ), (240 : ℝ)) := by
    simp [wsum, weight_zero]
  refine ⟨happ, ?_⟩
  rw [happ, hws]
  norm_num [pyIntR]

/-- Counterexample for C4: two reports of age 0 with arrivals 1 and 2 give
mean 3/2; the code answers `int(3/2) = 1` while the claimed
`round(3/2) = 2` (Python half-to-even rounding). -/
theorem weighted_avg_reports_truncates_not_rounds :
    weighted_avg_reports [((1 : ℤ), (0 : ℚ)), ((2 : ℤ), (0 : ℚ))] = some 1 ∧
    pyRoundR ((wsum [((1 : ℤ), (0 : ℚ)), ((2 : ℤ), (0 : ℚ))]).2 /
      (wsum [((1 : ℤ), (0 : ℚ)), ((2 : ℤ), (0 : ℚ))]).1) = 2 ∧
    (1 : ℤ) ≠ 2 := by
  have hws : wsum [((1 : ℤ), (0 : ℚ)), ((2 : ℤ), (0 : ℚ))] = ((2 : ℝ), (3 : ℝ)) := by
    simp [wsum, weight_zero]
    norm_num
  have hfloor : ⌊(3 : ℝ) / 2⌋ = 1 := by
    rw [Int.floor_eq_iff]
    norm_num
  refine ⟨?_, ?_, by decide⟩
  · rw [weighted_avg_reports_eq_trunc_mean _ (by decide), hws]
    norm_num [pyIntR, hfloor]
  · rw [hws]
    norm_num [pyRoundR, hfloor]

/-! ## Lemmas about `get_eta` -/

theorem wavg_single_one : weighted_avg_reports [((1 : ℤ), (0 : ℚ))] = some 1 := by
  have hws : wsum [((1 : ℤ), (0 : ℚ))] = ((1 : ℝ), (1 : ℝ)) := by
    simp [wsum, weight_zero]
  show (if 0 < (wsum [((1 : ℤ), (0 : ℚ))]).1
        then some (pyIntR ((wsum [((1 : ℤ), (0 : ℚ))]).2 / (wsum [((1 : ℤ), (0 : ℚ))]).1))
        else none) = some 1
  rw [hws]
  norm_num [pyIntR]

theorem wavg_envf : weighted_avg_reports (repList envf q1) = some 1 := by
  have h : repList envf q1 = [((1 : ℤ), (0 : ℚ))] := by decide
  rw [h]
  exact wavg_single_one

/-- C1 (amended): whenever both a crowd estimate `c` and a live estimate
`l` exist, the reported source is `crowd+live` and the returned ETA is the
`int()`-truncation of `0.4·c + 0.6·l` (clamped at zero; plain transit
query). -/
theorem get_eta_crowd_live_fusion (hav : ℚ → ℚ → ℚ → ℚ → ℚ)
    (env : BackendEnv) (q : EtaQuery) (stop : StopRow) (c l : ℤ)
    (hstop : lookupStop env.stops q.stop_id = some stop)
    (hcrowd : weighted_avg_reports (repList env q) = some c)
    (hlive : findLiveEta env.live q.stop_id q.line_id = some l)
    (hmode : q.mode = "transit") (horig : q.origin = none) :
    (get_eta hav env q).toOption.map ETAOut.source = some "crowd+live" ∧
    (get_eta hav env q).toOption.map ETAOut.eta_seconds =
      some (max 0 (pyInt ((c : ℚ) * 0.4 + (l : ℚ) * 0.6))) := by
  simp [get_eta, hstop, getEtaCore, hcrowd, hlive, combineSources, walkSeconds,
    horig, hmode, Except.toOption]

/-- Witness for C1 on `envf`: crowd 1, live 2, fused ETA `int(1.6) = 1`. -/
theorem get_eta_crowd_live_fusion_witness :
    (get_eta hav0 envf q1).toOption.map ETAOut.source = some "crowd+live" ∧
    (get_eta hav0 envf q1).toOption.map ETAOut.eta_seconds =
      some (max 0 (pyInt ((1 : ℚ) * 0.4 + (2 : ℚ) * 0.6))) :=
  get_eta_crowd_live_fusion hav0 envf q1 ⟨1, "S", 0, 0⟩ 1 2 rfl wavg_envf rfl rfl rfl

/-- Counterexample for C1: with crowd 1 and live 2 the code returns
`int(1.6) = 1`, while the claimed `round(1.6)` is 2. -/
theorem get_eta_fusion_truncates :
    (get_eta hav0 envf q1).toOption.map ETAOut.eta_seconds = some 1 ∧
    (get_eta hav0 envf q1).toOption.map ETAOut.source = some "crowd+live" ∧
    pyRound ((1 : ℚ) * 0.4 + (2 : ℚ) * 0.6) = 2 ∧ (1 : ℤ) ≠ 2 := by
  have h : get_eta hav0 envf q1 = Except.ok (getEtaCore hav0 envf q1 ⟨1, "S", 0, 0⟩ (some 1)) := by
    calc get_eta hav0 envf q1
        = Except.ok (getEtaCore hav0 envf q1 ⟨1, "S", 0, 0⟩
            (weighted_avg_reports (repList envf q1))) := rfl
      _ = _ := by rw [wavg_envf]
  rw [h]
  refine ⟨by decide, by decide, by decide, by decide⟩

theorem headway_max_eq (e : ℤ) : max 0 ((e.fdiv 600 + 1) * 600 - e) = 600 - e % 600 := by
  rw [Int.fdiv_eq_ediv _ (by norm_num)]
  omega

/-- C5: with a known stop, no recent crowd reports, no live match, and the
plain transit query, the ETA is `600 - epoch % 600`, the source is
`schedule`, and the assumed-headway detail is 600. -/
theorem get_eta_headway_fallback (hav : ℚ → ℚ → ℚ → ℚ → ℚ)
    (env : BackendEnv) (q : EtaQuery) (stop : StopRow)
    (hstop : lookupStop env.stops q.stop_id = some stop)
    (hrep : repList env q = [])
    (hlive : findLiveEta env.live q.stop_id q.line_id = none)
    (hmode : q.mode = "transit") (horig : q.origin = none) :
    (get_eta hav env q).toOption.map ETAOut.eta_seconds = some (600 - env.epoch % 600) ∧
    (get_eta hav env q).toOption.map ETAOut.source = some "schedule" ∧
    (get_eta hav env q).toOption.map (fun r => r.details.assumed_headway_seconds) =
      some (some 600) := by
  have hcrowd : weighted_avg_reports (repList env q) = none := by rw [hrep]; rfl
  simp [get_eta, hstop, getEtaCore, hcrowd, hlive, combineSources, walkSeconds,
    horig, hmode, Except.toOption]
  rw [← headway_max_eq env.epoch]

/-- Witness for C5 on `env1` (epoch 1234): ETA `600 - 34 = 566`. -/
theorem get_eta_headway_fallback_witness :
    (get_eta hav0 env1 q1).toOption.map ETAOut.eta_seconds = some (600 - (1234 : ℤ) % 600) ∧
    (get_eta hav0 env1 q1).toOption.map ETAOut.source = some "schedule" ∧
    (get_eta hav0 env1 q1).toOption.map (fun r => r.details.assumed_headway_seconds) =
      some (some 600) :=
  get_eta_headway_fallback hav0 env1 q1 ⟨1, "S", 0, 0⟩ rfl (by decide) rfl rfl rfl

/-- C7: `get_eta` succeeds exactly when the stop exists, the failure is
the 404 `"stop not found"`, and every successful ETA is non-negative. -/
theorem get_eta_not_found_and_nonneg (hav : ℚ → ℚ → ℚ → ℚ → ℚ)
    (env : BackendEnv) (q : EtaQuery) :
    ((get_eta hav env q).toOption.isSome = true ↔
      (lookupStop env.stops q.stop_id).isSome = true) ∧
    (∀ e, get_eta hav env q = .error e → e = "stop not found") ∧
    (∀ r, get_eta hav env q = .ok r → 0 ≤ r.eta_seconds) := by
  cases h : lookupStop env.stops q.stop_id with
  | none =>
    refine ⟨by simp [get_eta, h, Except.toOption], ?_, ?_⟩
    · intro e he
      simp only [get_eta, h] at he
      exact (Except.error.injEq _ _ ▸ he).symm
    · intro r hr
      simp [get_eta, h] at hr
  | some stop =>
    refine ⟨by simp [get_eta, h, Except.toOption], ?_, ?_⟩
    · intro e he
      simp [get_eta, h] at he
    · intro r hr
      simp only [get_eta, h, Except.ok.injEq] at hr
      rw [← hr]
      exact le_max_left 0 _

/-- Witness for C7: stop 1 exists in `env1` and its ETA is non-negative. -/
theorem get_eta_not_found_and_nonneg_witness :
    (get_eta hav0 env1 q1).toOption.isSome = true ∧
    0 ≤ (getEtaCore hav0 env1 q1 ⟨1, "S", 0, 0⟩ none).eta_seconds := by
  refine ⟨?_, ?_⟩
  · exact (get_eta_not_found_and_nonneg hav0 env1 q1).1.mpr (by decide)
  · exact (get_eta_not_found_and_nonneg hav0 env1 q1).2.2 _ rfl

theorem combineSources_source_mem (c l : Option ℤ) (e : ℤ) :
    (combineSources c l e).2.1 ∈ (["crowd", "live_feed", "crowd+live", "schedule"] : List String) := by
  cases c <;> cases l <;> simp [combineSources]

/-- C8 (amended): every successful `get_eta` reports a source among the
five values `crowd`, `live_feed`, `crowd+live`, `schedule`, `estimate`
(the fifth arises for walking/biking queries with a nonzero access time). -/
theorem get_eta_source_in_five (hav : ℚ → ℚ → ℚ → ℚ → ℚ)
    (env : BackendEnv) (q : EtaQuery) (r : ETAOut)
    (h : get_eta hav env q = .ok r) :
    r.source ∈ (["crowd", "live_feed", "crowd+live", "schedule", "estimate"] : List String) := by
  cases hl : lookupStop env.stops q.stop_id with
  | none => simp [get_eta, hl] at h
  | some stop =>
    simp only [get_eta, hl, Except.ok.injEq] at h
    rw [← h]
    have hmem := combineSources_source_mem
      (weighted_avg_reports (repList env q))
      (findLiveEta env.live q.stop_id q.line_id) env.epoch
    show (getEtaCore hav env q stop (weighted_avg_reports (repList env q))).source ∈ _
    simp only [getEtaCore]
    split
    · split
      · simp at hmem ⊢
        tauto
      · split <;> simp
    · simp at hmem ⊢
      tauto

/-- Witness for C8 on `env1`: the schedule fallback source. -/
theorem get_eta_source_in_five_witness :
    ({ stop_id := 1, line_id := none, eta_seconds := 566, source := "schedule",
       details := ⟨0, none, none, some 600, none, none⟩ } : ETAOut).source ∈
      (["crowd", "live_feed", "crowd+live", "schedule", "estimate"] : List String) :=
  get_eta_source_in_five hav0 env1 q1 _ rfl

/-- Counterexample for C8: a walking-mode query with an origin 5 km away
returns source `estimate`, outside the claimed four-value set. -/
theorem get_eta_source_estimate :
    (get_eta hav5 env1 qw).toOption.map ETAOut.source = some "estimate" ∧
    "estimate" ∉ (["crowd", "live_feed", "crowd+live", "schedule"] : List String) := by
  refine ⟨by decide, by decide⟩

/-! ## Realtime delay cache -/

/-- C9 (amended): the two delay maps are replaced sequentially, not as an
atomic pair — a reader starts at the old snapshot, finishes at the new
one, but can observe the new per-trip map beside the stale per-(trip,stop)
map; a failed poll leaves the old snapshot as the only observable state. -/
theorem fetch_trip_updates_sequential (old : DelayMaps) (td : List (String × ℤ))
    (tsd : List ((String × String) × ℤ)) :
    (fetchSuccessStates old td tsd).head? = some old ∧
    (fetchSuccessStates old td tsd).getLast? = some ⟨td, tsd⟩ ∧
    (⟨td, old.stop⟩ : DelayMaps) ∈ fetchSuccessStates old td tsd ∧
    fetchFailureStates old = [old] := by
  refine ⟨rfl, rfl, ?_, rfl⟩
  simp [fetchSuccessStates]

/-- Counterexample for C9: with concrete old and new maps, an observable
intermediate state differs from both the old and the new snapshot. -/
theorem fetch_trip_updates_not_atomic :
    ∃ s ∈ fetchSuccessStates ⟨[("t", 5)], [(("t", "s"), 7)]⟩ [("t", 9)] [(("t", "s"), 11)],
      s ≠ (⟨[("t", 5)], [(("t", "s"), 7)]⟩ : DelayMaps) ∧
      s ≠ (⟨[("t", 9)], [(("t", "s"), 11)]⟩ : DelayMaps) := by decide

/-! ## Safety annotation and duration bias -/

theorem annotate_leg_from_danger_map_duration (dm : DangerMap) (leg : Leg) :
    (annotate_leg_from_danger_map dm leg).duration_sec = leg.duration_sec := by
  unfold annotate_leg_from_danger_map
  dsimp only
  split
  · rfl
  · split <;> rfl

theorem annotate_leg_from_zones_duration (hav : ℚ → ℚ → ℚ → ℚ → ℚ)
    (zones : List Zone) (leg : Leg) :
    (annotate_leg_from_zones hav zones leg).duration_sec = leg.duration_sec := by
  unfold annotate_leg_from_zones
  dsimp only
  split <;> (split <;> rfl)

theorem combineParts_duration (leg : Leg) :
    (combineParts leg).duration_sec = leg.duration_sec := by
  unfold combineParts
  dsimp only
  split <;> rfl

theorem annotationStage_duration (enh : Bool) (dm : DangerMap) (zones : List Zone)
    (hav : ℚ → ℚ → ℚ → ℚ → ℚ) (leg : Leg) :
    (annotationStage enh dm zones hav leg).duration_sec = leg.duration_sec := by
  unfold annotationStage
  split
  · rfl
  · rw [annotateWalkLeg, combineParts_duration, annotate_leg_from_zones_duration,
      annotate_leg_from_danger_map_duration]

/-- C3 (amended): in the annotate-then-bias loop, a WALK leg whose
annotation carries safety score `s` gets its duration replaced by the
`int()`-truncation (not rounding) of
`base_duration · (1 + (1 − s) · k)`, `k = 0.3` for `prefer`, `0.6` for
`strict`. -/
theorem processWalkLeg_biases_by_trunc (enh : Bool) (dm : DangerMap)
    (zones : List Zone) (hav : ℚ → ℚ → ℚ → ℚ → ℚ) (mode : String)
    (leg : Leg) (s : ℚ)
    (hmode : mode = "prefer" ∨ mode = "strict")
    (hwalk : leg.mode = "WALK")
    (hs : (annotationStage enh dm zones hav leg).safety_score = some s) :
    (processWalkLeg enh dm zones hav mode leg).duration_sec =
      pyInt ((leg.duration_sec : ℚ) *
        (1 + (1 - s) * (if mode = "prefer" then 0.3 else 0.6))) := by
  unfold processWalkLeg
  rw [if_neg (by simp [hwalk])]
  show (biasDuration mode (annotationStage enh dm zones hav leg).duration_sec
    (annotationStage enh dm zones hav leg).safety_score) = _
  rw [annotationStage_duration, hs]
  rcases hmode with h | h <;> subst h <;> simp [biasDuration]

/-- Witness for C3: default danger 5 gives safety 0.556; a 3-second walk
leg under `prefer` keeps duration `int(3 · 1.13…) = 3`. -/
theorem processWalkLeg_biases_by_trunc_witness :
    (processWalkLeg false dm5 ([] : List Zone) hav0 "prefer" w3).duration_sec =
      pyInt ((3 : ℚ) * (1 + (1 - 139/250) * 0.3)) ∧
    (annotationStage false dm5 [] hav0 w3).safety_score = some (139/250) := by
  exact ⟨processWalkLeg_biases_by_trunc false dm5 [] hav0 "prefer" w3 (139/250)
    (Or.inl rfl) rfl (by decide), by decide⟩

/-- Counterexample for C3: danger 10 gives safety 0; a 3-second walk leg
under `prefer` becomes `int(3 · 1.3) = 3`, while the claimed
`round(3 · 1.3)` is 4. -/
theorem processWalkLeg_trunc_counterexample :
    (processWalkLeg false dm10 ([] : List Zone) hav0 "prefer" w3).duration_sec = 3 ∧
    (annotationStage false dm10 [] hav0 w3).safety_score = some 0 ∧
    pyRound ((3 : ℚ) * (1 + (1 - 0) * 0.3)) = 4 ∧ (3 : ℤ) ≠ 4 := by decide

/-! ## List lemmas for the planner -/

theorem mem_insertLe {α : Type} (le : α → α → Bool) (a x : α) (l : List α) :
    x ∈ insertLe le a l ↔ x = a ∨ x ∈ l := by
  induction l with
  | nil => simp [insertLe]
  | cons b t ih =>
    unfold insertLe
    by_cases h : le a b
    · simp [h]
    · simp [h, ih]
      tauto

theorem mem_sortLe {α : Type} (le : α → α → Bool) (x : α) (l : List α) :
    x ∈ sortLe le l ↔ x ∈ l := by
  induction l with
  | nil => simp [sortLe]
  | cons a t ih => simp [sortLe, mem_insertLe, ih]

theorem mem_dedupByAux {α σ : Type} [DecidableEq σ] (sig : α → σ) (x : α) :
    ∀ (seen : List σ) (l : List α), x ∈ dedupByAux sig seen l → x ∈ l := by
  intro seen l
  induction l generalizing seen with
  | nil => simp [dedupByAux]
  | cons a t ih =>
    unfold dedupByAux
    split
    · intro h
      exact List.mem_cons_of_mem _ (ih _ h)
    · intro h
      rcases List.mem_cons.mp h with h1 | h1
      · exact h1 ▸ List.mem_cons_self _ _
      · exact List.mem_cons_of_mem _ (ih _ h1)

theorem mem_dedupBy {α σ : Type} [DecidableEq σ] (sig : α → σ) (x : α) (l : List α)
    (h : x ∈ dedupBy sig l) : x ∈ l :=
  mem_dedupByAux sig x [] l h

theorem pairwise_insertLe {α : Type} (le : α → α → Bool)
    (htot : ∀ a b, le a b = true ∨ le b a = true)
    (htrans : ∀ a b c, le a b = true → le b c = true → le a c = true)
    (a : α) (l : List α) (hl : l.Pairwise (fun x y => le x y = true)) :
    (insertLe le a l).Pairwise (fun x y => le x y = true) := by
  induction l with
  | nil => simp [insertLe]
  | cons b t ih =>
    rcases List.pairwise_cons.mp hl with ⟨hb, ht⟩
    unfold insertLe
    by_cases h : le a b
    · rw [if_pos h]
      refine List.pairwise_cons.mpr ⟨?_, hl⟩
      intro y hy
      rcases List.mem_cons.mp hy with rfl | hy
      · exact h
      · exact htrans a b y h (hb y hy)
    · rw [if_neg h]
      have hba : le b a = true := (htot a b).resolve_left h
      refine List.pairwise_cons.mpr ⟨?_, ih ht⟩
      intro y hy
      rcases (mem_insertLe le a y t).mp hy with rfl | hy
      · exact hba
      · exact hb y hy

theorem pairwise_sortLe {α : Type} (le : α → α → Bool)
    (htot : ∀ a b, le a b = true ∨ le b a = true)
    (htrans : ∀ a b c, le a b = true → le b c = true → le a c = true)
    (l : List α) : (sortLe le l).Pairwise (fun x y => le x y = true) := by
  induction l with
  | nil => exact List.Pairwise.nil
  | cons a t ih => exact pairwise_insertLe le htot htrans a _ ih

/-! ## The transfer buffer (`plan_one_transfer`) -/

theorem directCandidate_dep_ge (st : Static) (dl : Delays) (o d : String)
    (after : ℤ) (rt : Bool) (rid tid : String) (t : TripCand)
    (h : directCandidate st dl o d after rt rid tid = some t) :
    after - 90 ≤ t.dep := by
  unfold directCandidate at h
  dsimp only at h
  repeat' split at h
  all_goals try (rw [Option.some.injEq] at h; subst h)
  all_goals simp_all

theorem find_direct_trips_dep_ge (st : Static) (dl : Delays) (o d : String)
    (after : ℤ) (rt : Bool) (t : TripCand)
    (h : t ∈ find_direct_trips st dl o d after rt) : after - 90 ≤ t.dep := by
  unfold find_direct_trips at h
  dsimp only at h
  rw [mem_sortLe] at h
  rcases List.mem_flatMap.mp h with ⟨rid, _, hmem⟩
  rcases List.mem_filterMap.mp hmem with ⟨tid, _, heq⟩
  exact directCandidate_dep_ge st dl o d after rt rid tid t heq

theorem transferCandidates_t2 (st : Static) (dl : Delays)
    (o_stops d_stops xs : List String) (after : ℤ) (rt : Bool) (c : TChoice)
    (h : c ∈ transferCandidates st dl o_stops d_stops xs after rt) :
    c.t2 ∈ find_direct_trips st dl c.x_stop c.d_stop (c.t1.arr + 120) rt ∧
    c.t1.arr + 30 ≤ c.t2.dep := by
  unfold transferCandidates at h
  rcases List.mem_flatMap.mp h with ⟨o, _, h⟩
  rcases List.mem_flatMap.mp h with ⟨x, _, h⟩
  split at h
  · simp at h
  · rcases List.mem_flatMap.mp h with ⟨t1, _, h⟩
    rcases List.mem_flatMap.mp h with ⟨dstop, _, h⟩
    rcases List.mem_map.mp h with ⟨t2, ht2, rfl⟩
    have ht2' := List.take_subset _ _ ht2
    have hdep := find_direct_trips_dep_ge st dl x dstop (t1.arr + 120) rt t2 ht2'
    refine ⟨ht2', ?_⟩
    show t1.arr + 30 ≤ t2.dep
    omega

/-- C2 (amended): every itinerary returned by `plan_one_transfer` comes
from a transfer choice whose second-leg adjusted departure is at least the
first-leg adjusted arrival plus 30 seconds — the 120-second transfer
buffer minus the 90-second early-boarding slack of `find_direct_trips`. -/
theorem plan_one_transfer_slack (hav : ℚ → ℚ → ℚ → ℚ → ℚ) (st : Static)
    (dl : Delays) (flat flng tlat tlng : ℚ) (after : ℤ) (max_walk : ℚ)
    (rtd : Bool) :
    ∀ it ∈ plan_one_transfer hav st dl flat flng tlat tlng after max_walk rtd,
      ∃ c, it = buildTransferItinerary hav st flat flng tlat tlng after c ∧
        c.t2 ∈ find_direct_trips st dl c.x_stop c.d_stop (c.t1.arr + 120) rtd ∧
        c.t1.arr + 30 ≤ c.t2.dep := by
  intro it hit
  unfold plan_one_transfer at hit
  dsimp only at hit
  split at hit
  · simp at hit
  · have hit1 := List.take_subset _ _ hit
    have hit2 := mem_dedupBy _ _ _ hit1
    rw [mem_sortLe] at hit2
    rcases List.mem_map.mp hit2 with ⟨c, hc, rfl⟩
    obtain ⟨h1, h2⟩ := transferCandidates_t2 _ _ _ _ _ _ _ _ hc
    exact ⟨c, rfl, h1, h2⟩

/-- Witness for C2 on `stT`: the single returned transfer itinerary. -/
theorem plan_one_transfer_slack_witness :
    buildTransferItinerary hav0 stT 0 0 0 0 900 cT ∈
      plan_one_transfer hav0 stT dl0 0 0 0 0 900 800 false ∧
    (∃ c, buildTransferItinerary hav0 stT 0 0 0 0 900 cT =
        buildTransferItinerary hav0 stT 0 0 0 0 900 c ∧
      c.t2 ∈ find_direct_trips stT dl0 c.x_stop c.d_stop (c.t1.arr + 120) false ∧
      c.t1.arr + 30 ≤ c.t2.dep) := by
  have hmem : buildTransferItinerary hav0 stT 0 0 0 0 900 cT ∈
      plan_one_transfer hav0 stT dl0 0 0 0 0 900 800 false := by decide
  exact ⟨hmem, plan_one_transfer_slack hav0 stT dl0 0 0 0 0 900 800 false _ hmem⟩

/-- Counterexample for C2: on `stT` the planner returns an itinerary whose
second leg departs 1030, only 30 s after the first leg arrives at 1000 —
short of the claimed 120-second buffer. -/
theorem plan_one_transfer_buffer_violated :
    ∃ it ∈ plan_one_transfer hav0 stT dl0 0 0 0 0 900 800 false,
      ∃ c, it = buildTransferItinerary hav0 stT 0 0 0 0 900 c ∧
        c.t2 ∈ find_direct_trips stT dl0 c.x_stop c.d_stop (c.t1.arr + 120) false ∧
        c.t2.dep < c.t1.arr + 120 := by
  refine ⟨buildTransferItinerary hav0 stT 0 0 0 0 900 cT, by decide, cT, rfl,
    by decide, by decide⟩

/-! ## The final sort of `plan` -/

theorem finalSortLe_total (a b : Itinerary) :
    finalSortLe a b = true ∨ finalSortLe b a = true := by
  simp only [finalSortLe, decide_eq_true_eq]
  rcases lt_trichotomy a.duration_sec b.duration_sec with h | h | h
  · exact Or.inl (Or.inl h)
  · rcases le_total (avg_walk_safety b) (avg_walk_safety a) with h2 | h2
    · exact Or.inl (Or.inr ⟨h, h2⟩)
    · exact Or.inr (Or.inr ⟨h.symm, h2⟩)
  · exact Or.inr (Or.inl h)

theorem finalSortLe_trans (a b c : Itinerary)
    (hab : finalSortLe a b = true) (hbc : finalSortLe b c = true) :
    finalSortLe a c = true := by
  simp only [finalSortLe, decide_eq_true_eq] at hab hbc ⊢
  rcases hab with h1 | ⟨h1, h1'⟩ <;> rcases hbc with h2 | ⟨h2, h2'⟩
  · exact Or.inl (h1.trans h2)
  · exact Or.inl (h2 ▸ h1)
  · exact Or.inl (h1 ▸ h2)
  · exact Or.inr ⟨h1.trans h2, h2'.trans h1'⟩

theorem length_le_one_of_singleton_eq {α : Type} {x : α} {l : List α}
    (h : [x] = l) : l.length ≤ 1 := by
  cases h
  simp

theorem walkOnlyFallback_length (provider : ℚ → ℚ → ℚ → ℚ → ℕ → Option (List WalkRoute))
    (hav : ℚ → ℚ → ℚ → ℚ → ℚ) (env : NavEnv) (p : PlanParams)
    (depart : ℤ) (reject : Option ℚ) (l : List Itinerary)
    (h : walkOnlyFallback provider hav env p depart reject = .ok l) :
    l.length ≤ 1 := by
  unfold walkOnlyFallback at h
  dsimp only at h
  repeat' split at h
  all_goals try simp at h
  all_goals exact length_le_one_of_singleton_eq h

theorem planFinish_sorted (p : PlanParams) (l l2 : List Itinerary)
    (hmode : p.safety = "prefer" ∨ p.safety = "strict")
    (h : planFinish p l = .ok l2) :
    l2.Pairwise (fun a b => finalSortLe a b = true) := by
  unfold planFinish at h
  dsimp only at h
  rw [if_pos (by rcases hmode with h' | h' <;> simp [h'])] at h
  rw [Except.ok.injEq] at h
  subst h
  exact List.Pairwise.sublist (List.take_sublist _ _)
    (pairwise_sortLe finalSortLe finalSortLe_total finalSortLe_trans _)

/-- C6 (amended): when `safety ∈ {prefer, strict}` every list of
itineraries `plan` returns is sorted by duration ascending with average
walk safety descending as the tie-break.  (With `safety = off` no final
sort is applied; see the counterexample.) -/
theorem plan_sorted_under_safety (provider : ℚ → ℚ → ℚ → ℚ → ℕ → Option (List WalkRoute))
    (hav : ℚ → ℚ → ℚ → ℚ → ℚ) (env : NavEnv) (p : PlanParams)
    (hmode : p.safety = "prefer" ∨ p.safety = "strict") :
    ∀ l, plan provider hav env p = .ok l →
      l.Pairwise (fun a b => a.duration_sec < b.duration_sec ∨
        (a.duration_sec = b.duration_sec ∧ avg_walk_safety b ≤ avg_walk_safety a)) := by
  intro l h
  have key : l.Pairwise (fun a b => finalSortLe a b = true) := by
    unfold plan at h
    dsimp only at h
    repeat' split at h
    all_goals first
      | exact planFinish_sorted _ _ _ hmode h
      | (exact absurd h (by simp))
      | (have hlen := walkOnlyFallback_length _ _ _ _ _ _ _ h
         match l, hlen with
         | [], _ => exact List.Pairwise.nil
         | [_], _ => exact List.pairwise_singleton _ _)
  refine key.imp ?_
  intro a b hab
  simpa [finalSortLe, decide_eq_true_eq] using hab

/-- Witness for C6: a `prefer` query that falls back to a walk-only
itinerary; the returned list is sorted. -/
theorem plan_sorted_under_safety_witness :
    plan provider0 hav0 envW pW = Except.ok planPreferResult ∧
    planPreferResult.Pairwise (fun a b => a.duration_sec < b.duration_sec ∨
      (a.duration_sec = b.duration_sec ∧ avg_walk_safety b ≤ avg_walk_safety a)) := by
  have h : plan provider0 hav0 envW pW = Except.ok planPreferResult := by decide
  exact ⟨h, plan_sorted_under_safety provider0 hav0 envW pW (Or.inl rfl) _ h⟩

/-- Counterexample for C6: with `safety = off` on `stC6` the planner
returns the direct itinerary (1100 s) before the faster one-transfer
itinerary (170 s) — the output is not sorted by duration. -/
theorem plan_off_not_duration_sorted :
    (plan provider0 havC6 envC6 pOff).toOption.map (fun l => l.map Itinerary.duration_sec) =
      some [1100, 170] ∧
    ¬ (([1100, 170] : List ℤ).Pairwise (fun a b => a ≤ b)) := by
  exact ⟨by decide, by decide⟩

end DawgNav
